import Mathlib

/-!
Verification of the biomechanical analysis and clinical reporting engine.

The Python sources are shallowly embedded over `ℚ`:
* Python floats are modelled as rationals; `round(x, k)` is modelled by
  `roundTo k` below (`round` on `ℚ`, which rounds half away from the even
  tie rule Python uses only on exact half ties — none of the properties
  proved here depend on tie behaviour).
* Python dicts holding metric records / profiles are modelled as structures
  of `Option`-valued fields; `d.get(key, default)` becomes `field.getD default`.
* Risk levels travel as the strings "High" / "Moderate" / "Low", as in the code.
-/

namespace Prothexai

/-- Model of Python `round(x, k)` on the rational model of floats:
round to `k` decimal places, ties as in Mathlib's `round`. -/
def roundTo (k : ℕ) (x : ℚ) : ℚ := (round (x * (10 : ℚ) ^ k) : ℤ) / (10 : ℚ) ^ k

/-- Model of `round(x, 2)` as used in `analysis_service.py`. -/
def round2 (x : ℚ) : ℚ := roundTo 2 x

/-- Model of `round(x, 1)` as used in `analysis_engine.py`. -/
def round1 (x : ℚ) : ℚ := roundTo 1 x

/-- One daily metric record (a document of the `daily_metrics` collection).
Every field is optional: the Python code reads each field with
`record.get(name, default)`, supplying the default at each call site. -/
structure MetricRecord where
  step_length_cm : Option ℚ := none
  cadence_spm : Option ℚ := none
  walking_speed_mps : Option ℚ := none
  gait_symmetry_index : Option ℚ := none
  skin_temperature_c : Option ℚ := none
  skin_moisture : Option ℚ := none
  pressure_distribution_index : Option ℚ := none
  daily_wear_hours : Option ℚ := none
  prosthetic_health_score : Option ℚ := none
  gait_abnormality : Option String := none
  skin_risk : Option String := none
deriving Repr, DecidableEq

/-- A patient profile document (`patient_profiles` collection); optional fields
read with `profile.get(...)` in the Python code. -/
structure SubjectProfile where
  bmi : Option ℚ := none
  blood_pressure_systolic : Option ℤ := none
  blood_pressure_diastolic : Option ℤ := none
  blood_sugar_mg_dl : Option ℚ := none
  medical_conditions : Option (List String) := none
  gender : Option String := none
  height_cm : Option ℚ := none
  weight_kg : Option ℚ := none
  name : Option String := none
  age : Option ℚ := none
deriving Repr, DecidableEq

/-! ### `app/services/analysis_service.py` -/

/-- Embedding of `AnalysisService.calculate_gait_score`: start at 100, subtract the four
capped penalties, clamp to `[0, 100]`, round to 2 decimals. -/
def calculate_gait_score (metrics : MetricRecord) : ℚ :=
  let symmetry := metrics.gait_symmetry_index.getD 1.0
  let speed := metrics.walking_speed_mps.getD 1.0
  let step := metrics.step_length_cm.getD 50
  let cadence := metrics.cadence_spm.getD 100
  let score : ℚ := 100.0
  let score := score - max 0 ((0.9 - symmetry) * 50)
  let score := score - max 0 ((1.2 - speed) * 20)
  let score := score - max 0 ((60 - step) * 0.5)
  let score := score - max 0 ((90 - cadence) * 0.2)
  round2 (min (max score 0.0) 100.0)

/-- Embedding of `AnalysisService.calculate_pressure_risk`. -/
def calculate_pressure_risk (metrics : MetricRecord) : String :=
  let pressure_idx := metrics.pressure_distribution_index.getD 1.0
  if pressure_idx < 0.6 then "High"
  else if pressure_idx < 0.8 then "Moderate"
  else "Low"

/-- The accumulated integer risk score inside `AnalysisService.calculate_skin_risk`. -/
def skin_risk_score (metrics : MetricRecord) : ℕ :=
  let temp := metrics.skin_temperature_c.getD 30
  let moisture := metrics.skin_moisture.getD 50
  let wear_hours := metrics.daily_wear_hours.getD 8
  let risk_score : ℕ := 0
  let risk_score := if temp > 34 then risk_score + 2 else risk_score
  let risk_score := if moisture > 70 then risk_score + 2 else risk_score
  let risk_score := if wear_hours > 12 then risk_score + 1 else risk_score
  risk_score

/-- Embedding of `AnalysisService.calculate_skin_risk`. -/
def calculate_skin_risk (metrics : MetricRecord) : String :=
  let risk_score := skin_risk_score metrics
  if risk_score ≥ 4 then "High"
  else if risk_score ≥ 2 then "Moderate"
  else "Low"

/-- Embedding of `AnalysisService.generate_summary`: the ordered recommendation list.
The `metrics` argument is accepted but unused, as in the source. -/
def generate_summary (gait_score : ℚ) (pressure_risk : String) (skin_risk : String)
    (_metrics : MetricRecord) (profile : SubjectProfile) : List String :=
  let recommendations : List String := []
  let recommendations := if gait_score < 70 then
    recommendations ++ ["Significant gait asymmetry or reduced mobility detected."]
    else recommendations
  let recommendations := if pressure_risk = "High" then
    recommendations ++ ["Severe pressure imbalance. Immediate socket inspection recommended."]
    else if pressure_risk = "Moderate" then
    recommendations ++ ["Minor pressure imbalance detected. Monitor for discomfort."]
    else recommendations
  let recommendations := if skin_risk = "High" then
    recommendations ++ ["Critical risk of skin irritation or breakdown."]
    else if skin_risk = "Moderate" then
    recommendations ++ ["Elevated skin temperature/moisture. Ensure proper stump hygiene."]
    else recommendations
  let bmi := profile.bmi.getD 0
  let recommendations := if bmi > 30 then
    recommendations ++ ["High BMI may increase mechanical stress on the prosthesis."]
    else recommendations
  recommendations

/-- Embedding of `AnalysisService.get_risk_level`. -/
def get_risk_level (gait_score : ℚ) (pressure_risk : String) (skin_risk : String) : String :=
  if skin_risk = "High" ∨ pressure_risk = "High" ∨ gait_score < 50 then "High"
  else if skin_risk = "Moderate" ∨ pressure_risk = "Moderate" ∨ gait_score < 80 then "Moderate"
  else "Low"

/-- The key-flag list built inline in `analyze_record` (`app/routes/analysis.py`). -/
def analyze_record_flags (gait_score : ℚ) (pressure_risk : String) (skin_risk : String) :
    List String :=
  let flags : List String := []
  let flags := if gait_score < 75 then flags ++ ["Abnormal Gait Symmetry"] else flags
  let flags := if pressure_risk = "High" then flags ++ ["High Pressure Risk"] else flags
  let flags := if skin_risk = "High" then flags ++ ["High Skin Risk"] else flags
  flags

/-! ### `app/services/analysis_engine.py` -/

/-- Models Python `str()` applied to the float values interpolated into the
step/cadence narrative line: a plain decimal rendering with at least one
fractional digit. Faithful for values with an exact decimal expansion of at
most 10 digits (the engine passes values pre-rounded to one decimal);
Python's shortest-round-trip float repr is not expressible over `ℚ`. -/
def pyStr (q : ℚ) : String :=
  let sgn := if q < 0 then "-" else ""
  let k := max 1 (((List.range 11).filter fun j => ((|q|) * (10 : ℚ) ^ j).den = 1).headD 10)
  let n := ((|q|) * (10 : ℚ) ^ k).num.toNat
  let digits := toString n
  let digits := String.mk (List.replicate (k + 1 - digits.length) '0') ++ digits
  sgn ++ (digits.take (digits.length - k)) ++ "." ++ (digits.drop (digits.length - k))

/-- Embedding of `generate_clinical_summary` (`app/services/analysis_engine.py`): the
four-line rule-based narrative.  The input dict is read with defaults
`0` for the numeric fields and `"unknown"` for `skin_risk`. -/
def generate_clinical_summary (metrics : MetricRecord) : List String :=
  let summary : List String := []
  let symmetry := metrics.gait_symmetry_index.getD 0
  let step_length := metrics.step_length_cm.getD 0
  let cadence := metrics.cadence_spm.getD 0
  let health_score := metrics.prosthetic_health_score.getD 0
  let skin_risk := metrics.skin_risk.getD "unknown"
  -- Line 1: Overall Health
  let summary := if health_score ≥ 80 then
      summary ++ ["Overall prosthetic performance is stable with strong biomechanical efficiency."]
    else if health_score ≥ 60 then
      summary ++ ["Moderate prosthetic stability observed; minor biomechanical deviations detected."]
    else
      summary ++ ["Reduced prosthetic efficiency detected; clinical review recommended."]
  -- Line 2: Gait Symmetry, after the heuristic rescale of a 0-1 fraction
  let symmetry := if symmetry < 1.1 then symmetry * 100 else symmetry
  let summary := if symmetry ≥ 90 then
      summary ++ ["Gait symmetry is within optimal clinical range."]
    else if symmetry ≥ 75 then
      summary ++ ["Mild asymmetry present; corrective gait monitoring advised."]
    else
      summary ++ ["Significant gait asymmetry detected; rehabilitation adjustment suggested."]
  -- Line 3: Step & Cadence
  let summary := summary ++ ["Step length averages " ++ pyStr step_length ++
      " cm with cadence at " ++ pyStr cadence ++
      " steps/min, indicating functional mobility status."]
  -- Line 4: Skin Risk
  let summary := if skin_risk.toLower = "high" then
      summary ++ ["Elevated skin risk detected; immediate prosthetic fit assessment recommended."]
    else if skin_risk.toLower = "moderate" then
      summary ++ ["Moderate skin stress observed; monitor tissue condition closely."]
    else
      summary ++ ["Skin integrity remains within safe tolerance levels."]
  summary

/-- The `metrics` block of the composed summary payload. -/
structure SummaryMetrics where
  avg_step_length_cm : ℚ
  avg_cadence_spm : ℚ
  avg_walking_speed_mps : ℚ
  avg_gait_symmetry_index : ℚ
  avg_pressure_distribution_index : ℚ
  avg_skin_temperature_c : ℚ
  avg_skin_moisture : ℚ
deriving Repr, DecidableEq

/-- The `classification` block of the composed summary payload. -/
structure Classification where
  gait_abnormality : String
  skin_risk : String
  prosthetic_health_score : ℚ
  overall_clinical_risk : String
deriving Repr, DecidableEq

/-- The `clinical_profile` block of the composed summary payload. -/
structure ClinicalProfile where
  gender : String
  height_cm : Option ℚ
  weight_kg : Option ℚ
  bmi : ℚ
  blood_pressure : String
  blood_sugar_mg_dl : ℚ
  medical_conditions : List String
deriving Repr, DecidableEq

/-- The `composite_metrics` dict handed to `ai_engine.determine_overall_risk`. -/
structure CompositeMetrics where
  gait_symmetry_index : ℚ
  pressure_distribution_index : ℚ
  skin_temperature_c : ℚ
  skin_moisture : ℚ
  profile : SubjectProfile
deriving Repr, DecidableEq

/-- The full `summary_data` payload returned by `get_patient_health_summary`. -/
structure SummaryData where
  metrics : SummaryMetrics
  classification : Classification
  clinical_profile : ClinicalProfile
  analysis : List String
  patient_name : String
  patient_age : ℚ
  recent_alerts : List String
deriving Repr, DecidableEq

/-- The per-field averaging step of `get_patient_health_summary`: mean of
`r.get(field, 0)` over every fetched record, `0` when no records exist. -/
def field_average (daily_records : List MetricRecord) (f : MetricRecord → Option ℚ) : ℚ :=
  if daily_records.isEmpty then 0
  else (daily_records.map fun r => (f r).getD 0).sum / daily_records.length

/-- The pure core of `get_patient_health_summary`
(`app/services/analysis_engine.py`), applied to the patient profile and the
fetched `daily_metrics` list (at most 100 documents, collection order; no date
filter).  `determine_overall_risk` stands for `ai_engine.determine_overall_risk`,
a collaborator whose source (`app/services/ai_engine.py`) is outside the
analysed sources; it is passed in as a function. -/
def get_patient_health_summary (profile : SubjectProfile)
    (daily_records : List MetricRecord)
    (determine_overall_risk : CompositeMetrics → String) : SummaryData :=
  let avg_step_length_cm := field_average daily_records (fun r => r.step_length_cm)
  let avg_cadence_spm := field_average daily_records (fun r => r.cadence_spm)
  let avg_walking_speed_mps := field_average daily_records (fun r => r.walking_speed_mps)
  let avg_gait_symmetry := field_average daily_records (fun r => r.gait_symmetry_index)
  let avg_skin_temp := field_average daily_records (fun r => r.skin_temperature_c)
  let avg_skin_moisture := field_average daily_records (fun r => r.skin_moisture)
  let avg_pressure_distribution :=
    field_average daily_records (fun r => r.pressure_distribution_index)
  let avg_health_score := field_average daily_records (fun r => r.prosthetic_health_score)
  let gait_abnormality := if daily_records.isEmpty then "No Data"
    else ((daily_records.getLast?.getD {}).gait_abnormality).getD "Normal"
  let skin_risk := if daily_records.isEmpty then "No Data"
    else ((daily_records.getLast?.getD {}).skin_risk).getD "Low"
  let latest_metrics : MetricRecord := {
    gait_symmetry_index := some avg_gait_symmetry
    step_length_cm := some (round1 avg_step_length_cm)
    cadence_spm := some (round1 avg_cadence_spm)
    prosthetic_health_score := some (round1 avg_health_score)
    skin_risk := some skin_risk }
  let analysis_lines := generate_clinical_summary latest_metrics
  let composite_metrics : CompositeMetrics := {
    gait_symmetry_index := avg_gait_symmetry
    pressure_distribution_index := avg_pressure_distribution
    skin_temperature_c := avg_skin_temp
    skin_moisture := avg_skin_moisture
    profile := profile }
  let clinical_risk := determine_overall_risk composite_metrics
  let recent_alerts : List String :=
    if avg_pressure_distribution < 0.6 then ["Load Imbalance Detected"] else []
  { metrics := {
      avg_step_length_cm := round2 avg_step_length_cm
      avg_cadence_spm := round2 avg_cadence_spm
      avg_walking_speed_mps := round2 avg_walking_speed_mps
      avg_gait_symmetry_index := round2 avg_gait_symmetry
      avg_pressure_distribution_index := round2 avg_pressure_distribution
      avg_skin_temperature_c := round2 avg_skin_temp
      avg_skin_moisture := round2 avg_skin_moisture }
    classification := {
      gait_abnormality := gait_abnormality
      skin_risk := skin_risk
      prosthetic_health_score := round2 avg_health_score
      overall_clinical_risk := clinical_risk }
    clinical_profile := {
      gender := profile.gender.getD "Unknown"
      height_cm := profile.height_cm
      weight_kg := profile.weight_kg
      bmi := profile.bmi.getD 0
      blood_pressure := toString (profile.blood_pressure_systolic.getD 0) ++ "/" ++
        toString (profile.blood_pressure_diastolic.getD 0)
      blood_sugar_mg_dl := profile.blood_sugar_mg_dl.getD 0
      medical_conditions := profile.medical_conditions.getD [] }
    analysis := analysis_lines
    patient_name := profile.name.getD "Unknown"
    patient_age := profile.age.getD 0
    recent_alerts := recent_alerts }

/-! ### `app/routes/report.py` — the report cache -/

/-- A value found under `data["metrics"]["avg_step_length_cm"]` in a cached
analysis document: a number or a string (e.g. `"N/A"`); absence of the key is
modelled by `Option` at the use site. -/
inductive MetricVal where
  | num (q : ℚ)
  | str (s : String)
deriving Repr, DecidableEq

/-- The parts of a cached `analysis_results` document's `data` dict that
`download_report` inspects when validating a cache hit.  `analysis` is the
narrative line list as stored by `get_patient_health_summary`; `none` models
an absent key (read back by the route as `""`, which is falsy). -/
structure CachedData where
  avg_step_length_cm : Option MetricVal
  analysis : Option (List String)
deriving Repr, DecidableEq

/-- One document of the `analysis_results` collection as read by
`download_report`.  `created_at` is measured in hours. -/
structure CacheEntry where
  patient_id : String
  date : String
  type : String
  data : CachedData
  created_at : ℚ
deriving Repr, DecidableEq

/-- The filter of the `find_one` call in `download_report`: the key triple
must match and `created_at >= now - 24 hours`. -/
def cache_filter (patient_id today : String) (now : ℚ) (e : CacheEntry) : Bool :=
  e.patient_id == patient_id && e.date == today && e.type == "ai_medical_report" &&
    decide (now - 24 ≤ e.created_at)

/-- Embedding of `has_real_metrics` in `download_report`:
`metrics.get("avg_step_length_cm") not in (None, "N/A")`. -/
def has_real_metrics (d : CachedData) : Bool :=
  match d.avg_step_length_cm with
  | none => false
  | some (.str s) => s != "N/A"
  | some (.num _) => true

/-- Embedding of `has_valid_ai` in `download_report`: the narrative read back with default
`""` must be truthy (non-empty) and must not contain the placeholder markers.
On the list-valued payload this route stores, Python's `in` is list
membership, so a line is caught only when it EQUALS a marker. -/
def has_valid_ai (d : CachedData) : Bool :=
  match d.analysis with
  | none => false
  | some l => !l.isEmpty && !(l.contains "temporarily unavailable") &&
      !(l.contains "failed to generate")

/-- How a freshly composed `summary_data` payload looks when read back from
the cache on a later request. -/
def toCachedData (s : SummaryData) : CachedData :=
  { avg_step_length_cm := some (.num s.metrics.avg_step_length_cm)
    analysis := some s.analysis }

/-- The document that `download_report` inserts on a cache miss. -/
def new_cache_entry (patient_id today : String) (now : ℚ) (computed : SummaryData) :
    CacheEntry :=
  { patient_id := patient_id, date := today, type := "ai_medical_report",
    data := toCachedData computed, created_at := now }

/-- The cache read / validate / recompute / insert logic of `download_report`
(`app/routes/report.py`), as a function of the current `analysis_results`
collection (in insertion order — `find_one` without a sort returns the first
match), the patient key, today's date string, the current time in hours, and
the summary the engine computes on a miss (the engine-failure HTTP-500 branch
is outside this model).  Returns the payload served and the collection after
the request. -/
def download_report_cache (store : List CacheEntry) (patient_id today : String)
    (now : ℚ) (computed : SummaryData) : CachedData × List CacheEntry :=
  let cached_analysis := store.find? (cache_filter patient_id today now)
  let summary_data : Option CachedData :=
    match cached_analysis with
    | some e => if has_real_metrics e.data && has_valid_ai e.data then some e.data else none
    | none => none
  match summary_data with
  | some d => (d, store)
  | none => (toCachedData computed, store ++ [new_cache_entry patient_id today now computed])

/-- Test that `pat` occurs as a contiguous run inside the character list (structurally
recursive on the haystack, so it evaluates inside the kernel). -/
def char_substr (pat : List Char) : List Char → Bool
  | [] => pat.isEmpty
  | c :: t => pat.isPrefixOf (c :: t) || char_substr pat t

/-- Substring containment on strings, via their character lists. -/
def str_contains (hay needle : String) : Bool := char_substr needle.toList hay.toList

/-- Modelled from the spec: the freshness invariant exactly as the claim
words it — entry age within 24 hours, real metric values, and no narrative
line whose TEXT contains a placeholder-failure marker (substring reading).
Declared only to compare the claim against the code's actual check. -/
def spec_freshness (now : ℚ) (e : CacheEntry) : Bool :=
  decide (now - 24 ≤ e.created_at) && has_real_metrics e.data &&
    !((e.data.analysis.getD []).any fun line =>
      str_contains line "temporarily unavailable" || str_contains line "failed to generate")

/-! ### Rounding lemmas -/

lemma round_mono_of_le {x y : ℚ} (h : x ≤ y) : round x ≤ round y := by
  rw [round_eq, round_eq]
  exact Int.floor_mono (by linarith)

lemma roundTo_mono (k : ℕ) {x y : ℚ} (h : x ≤ y) : roundTo k x ≤ roundTo k y := by
  unfold roundTo
  have hp : (0 : ℚ) < (10 : ℚ) ^ k := by positivity
  have h2 : ((round (x * (10 : ℚ) ^ k) : ℤ) : ℚ) ≤ ((round (y * (10 : ℚ) ^ k) : ℤ) : ℚ) := by
    exact_mod_cast round_mono_of_le (mul_le_mul_of_nonneg_right h hp.le)
  gcongr

lemma round2_mono {x y : ℚ} (h : x ≤ y) : round2 x ≤ round2 y := roundTo_mono 2 h

lemma round2_zero : round2 0 = 0 := by
  simp [round2, roundTo]

lemma round2_hundred : round2 100 = 100 := by
  norm_num [round2, roundTo]

lemma round2_clamp_nonneg (s : ℚ) : 0 ≤ round2 (min (max s 0) 100) := by
  have h := round2_mono (le_min (le_max_right s 0) (by norm_num : (0 : ℚ) ≤ 100))
  calc (0 : ℚ) = round2 0 := round2_zero.symm
    _ ≤ _ := h

lemma round2_clamp_le_hundred (s : ℚ) : round2 (min (max s 0) 100) ≤ 100 := by
  have h := round2_mono (min_le_right (max s 0) 100)
  calc round2 (min (max s 0) 100) ≤ round2 100 := h
    _ = 100 := round2_hundred

/-- The pre-clamp gait score: 100 minus the four capped penalties of
`calculate_gait_score`. -/
def gait_pre_score (m : MetricRecord) : ℚ :=
  100 - max 0 ((0.9 - m.gait_symmetry_index.getD 1.0) * 50)
      - max 0 ((1.2 - m.walking_speed_mps.getD 1.0) * 20)
      - max 0 ((60 - m.step_length_cm.getD 50) * 0.5)
      - max 0 ((90 - m.cadence_spm.getD 100) * 0.2)

lemma ofSci_zero : (0.0 : ℚ) = 0 := by norm_num

lemma ofSci_hundred : (100.0 : ℚ) = 100 := by norm_num

lemma calculate_gait_score_eq (m : MetricRecord) :
    calculate_gait_score m = round2 (min (max (gait_pre_score m) 0) 100) := by
  simp only [calculate_gait_score, gait_pre_score, ofSci_zero, ofSci_hundred]

/-! ### Claim theorems -/

/-- C1: For every metric record, the gait score equals 100 minus the four
capped penalties `max(0, (0.9 - symmetry) * 50)`, `max(0, (1.2 - speed) * 20)`,
`max(0, (60 - step_length_cm) * 0.5)` and `max(0, (90 - cadence_spm) * 0.2)`,
clamped to `[0, 100]` and rounded to 2 decimals; in particular
`0 ≤ gaitScore(record) ≤ 100` for every record. -/
theorem gait_score_formula_and_bounds (m : MetricRecord) :
    calculate_gait_score m =
      round2 (min (max (100 - max 0 ((0.9 - m.gait_symmetry_index.getD 1.0) * 50)
        - max 0 ((1.2 - m.walking_speed_mps.getD 1.0) * 20)
        - max 0 ((60 - m.step_length_cm.getD 50) * 0.5)
        - max 0 ((90 - m.cadence_spm.getD 100) * 0.2)) 0) 100) ∧
    0 ≤ calculate_gait_score m ∧ calculate_gait_score m ≤ 100 := by
  refine ⟨calculate_gait_score_eq m, ?_, ?_⟩ <;> rw [calculate_gait_score_eq m]
  · exact round2_clamp_nonneg _
  · exact round2_clamp_le_hundred _

/-- C3: `get_risk_level` returns High if skin risk is High, pressure risk is
High or the gait score is below 50; otherwise Moderate if skin risk is
Moderate, pressure risk is Moderate or the gait score is below 80; otherwise
Low — and any High sub-signal forces High (skin High with gait 100 and
pressure Low still yields High). -/
theorem get_risk_level_spec (g : ℚ) (p s : String) :
    ((s = "High" ∨ p = "High" ∨ g < 50) → get_risk_level g p s = "High") ∧
    (¬(s = "High" ∨ p = "High" ∨ g < 50) →
      (s = "Moderate" ∨ p = "Moderate" ∨ g < 80) → get_risk_level g p s = "Moderate") ∧
    (¬(s = "High" ∨ p = "High" ∨ g < 50) →
      ¬(s = "Moderate" ∨ p = "Moderate" ∨ g < 80) → get_risk_level g p s = "Low") ∧
    get_risk_level 100 "Low" "High" = "High" := by
  refine ⟨?_, ?_, ?_, by norm_num [get_risk_level]⟩ <;> intro h1 <;> simp only [get_risk_level]
  · rw [if_pos h1]
  · intro h2
    rw [if_neg h1, if_pos h2]
  · intro h2
    rw [if_neg h1, if_neg h2]

/-- Witness for C3 at `gait_score = 40`, `pressure_risk = skin_risk = "Low"`:
the High branch fires on the gait sub-signal alone. -/
theorem get_risk_level_spec_witness :
    (("Low" : String) = "High" ∨ ("Low" : String) = "High" ∨ (40 : ℚ) < 50) ∧
    get_risk_level 40 "Low" "Low" = "High" :=
  ⟨by norm_num, (get_risk_level_spec 40 "Low" "Low").1 (by norm_num)⟩

/-- C4: `calculate_pressure_risk` returns High when the distribution index is
below 0.6, Moderate when it lies in `[0.6, 0.8)`, and Low when it is at least
0.8; exact equality at 0.6 and 0.8 resolves to the lower-severity bucket. -/
theorem calculate_pressure_risk_spec (m : MetricRecord) :
    (m.pressure_distribution_index.getD 1.0 < 0.6 → calculate_pressure_risk m = "High") ∧
    (0.6 ≤ m.pressure_distribution_index.getD 1.0 →
      m.pressure_distribution_index.getD 1.0 < 0.8 → calculate_pressure_risk m = "Moderate") ∧
    (0.8 ≤ m.pressure_distribution_index.getD 1.0 → calculate_pressure_risk m = "Low") ∧
    calculate_pressure_risk { pressure_distribution_index := some 0.6 } = "Moderate" ∧
    calculate_pressure_risk { pressure_distribution_index := some 0.8 } = "Low" := by
  refine ⟨?_, ?_, ?_, by norm_num [calculate_pressure_risk], by norm_num [calculate_pressure_risk]⟩
    <;> intro h1 <;> simp only [calculate_pressure_risk]
  · rw [if_pos h1]
  · intro h2
    rw [if_neg (not_lt.mpr h1), if_pos h2]
  · rw [if_neg (not_lt.mpr (by linarith)), if_neg (not_lt.mpr (by linarith))]

/-- Witness for C4 at index 0.59: the High branch. -/
theorem calculate_pressure_risk_spec_witness :
    (({ pressure_distribution_index := some 0.59 } : MetricRecord).pressure_distribution_index.getD
        1.0 < 0.6) ∧
    calculate_pressure_risk { pressure_distribution_index := some 0.59 } = "High" :=
  ⟨by norm_num, (calculate_pressure_risk_spec { pressure_distribution_index := some 0.59 }).1
    (by norm_num)⟩

/-- The claim's first skin-risk example record: temperature 35, moisture 71, wear 13. -/
def skin_example_high : MetricRecord :=
  { skin_temperature_c := some 35, skin_moisture := some 71, daily_wear_hours := some 13 }

/-- The claim's second skin-risk example record: temperature 35, moisture 50, wear 8. -/
def skin_example_moderate : MetricRecord :=
  { skin_temperature_c := some 35, skin_moisture := some 50, daily_wear_hours := some 8 }

/-- The claim's third skin-risk example record: temperature 30, moisture 50, wear 8. -/
def skin_example_low : MetricRecord :=
  { skin_temperature_c := some 30, skin_moisture := some 50, daily_wear_hours := some 8 }

/-- C5: `calculate_skin_risk` accumulates +2 for temperature above 34, +2 for
moisture above 70 and +1 for wear above 12 hours, mapping a total of at least
4 to High, at least 2 to Moderate and anything else to Low; the claim's three
example records land on High (score 5), Moderate (score 2) and Low (score 0). -/
theorem calculate_skin_risk_spec (m : MetricRecord) :
    skin_risk_score m = (if m.skin_temperature_c.getD 30 > 34 then 2 else 0) +
      (if m.skin_moisture.getD 50 > 70 then 2 else 0) +
      (if m.daily_wear_hours.getD 8 > 12 then 1 else 0) ∧
    (skin_risk_score m ≥ 4 → calculate_skin_risk m = "High") ∧
    (2 ≤ skin_risk_score m → skin_risk_score m < 4 → calculate_skin_risk m = "Moderate") ∧
    (skin_risk_score m < 2 → calculate_skin_risk m = "Low") ∧
    skin_risk_score skin_example_high = 5 ∧
    calculate_skin_risk skin_example_high = "High" ∧
    skin_risk_score skin_example_moderate = 2 ∧
    calculate_skin_risk skin_example_moderate = "Moderate" ∧
    skin_risk_score skin_example_low = 0 ∧
    calculate_skin_risk skin_example_low = "Low" := by
  refine ⟨?_, ?_, ?_, ?_,
    by norm_num [skin_risk_score, skin_example_high],
    by norm_num [calculate_skin_risk, skin_risk_score, skin_example_high],
    by norm_num [skin_risk_score, skin_example_moderate],
    by norm_num [calculate_skin_risk, skin_risk_score, skin_example_moderate],
    by norm_num [skin_risk_score, skin_example_low],
    by norm_num [calculate_skin_risk, skin_risk_score, skin_example_low]⟩
  · simp only [skin_risk_score]
    split_ifs <;> rfl
  · intro h1
    simp only [calculate_skin_risk]
    rw [if_pos h1]
  · intro h1 h2
    simp only [calculate_skin_risk]
    rw [if_neg (by omega), if_pos h1]
  · intro h1
    simp only [calculate_skin_risk]
    rw [if_neg (by omega), if_neg (by omega)]

/-- Witness for C5 at temperature 35, moisture 71, wear 13 hours: score 5
reaches the High branch. -/
theorem calculate_skin_risk_spec_witness :
    skin_risk_score skin_example_high ≥ 4 ∧ calculate_skin_risk skin_example_high = "High" :=
  ⟨by norm_num [skin_risk_score, skin_example_high],
    (calculate_skin_risk_spec skin_example_high).2.1
      (by norm_num [skin_risk_score, skin_example_high])⟩

/-- C6: `calculate_gait_score` is monotone non-increasing in each penalized
deviation: lowering the effective symmetry, speed, step length or cadence
(leaving the rest no worse) never increases the score. -/
theorem gait_score_monotone (m1 m2 : MetricRecord)
    (hsym : m2.gait_symmetry_index.getD 1.0 ≤ m1.gait_symmetry_index.getD 1.0)
    (hspeed : m2.walking_speed_mps.getD 1.0 ≤ m1.walking_speed_mps.getD 1.0)
    (hstep : m2.step_length_cm.getD 50 ≤ m1.step_length_cm.getD 50)
    (hcad : m2.cadence_spm.getD 100 ≤ m1.cadence_spm.getD 100) :
    calculate_gait_score m2 ≤ calculate_gait_score m1 := by
  rw [calculate_gait_score_eq, calculate_gait_score_eq]
  apply round2_mono
  have h : gait_pre_score m2 ≤ gait_pre_score m1 := by
    unfold gait_pre_score
    have p1 : max 0 ((0.9 - m1.gait_symmetry_index.getD 1.0) * 50) ≤
        max 0 ((0.9 - m2.gait_symmetry_index.getD 1.0) * 50) :=
      max_le_max (le_refl 0) (by nlinarith)
    have p2 : max 0 ((1.2 - m1.walking_speed_mps.getD 1.0) * 20) ≤
        max 0 ((1.2 - m2.walking_speed_mps.getD 1.0) * 20) :=
      max_le_max (le_refl 0) (by nlinarith)
    have p3 : max 0 ((60 - m1.step_length_cm.getD 50) * 0.5) ≤
        max 0 ((60 - m2.step_length_cm.getD 50) * 0.5) :=
      max_le_max (le_refl 0) (by nlinarith)
    have p4 : max 0 ((90 - m1.cadence_spm.getD 100) * 0.2) ≤
        max 0 ((90 - m2.cadence_spm.getD 100) * 0.2) :=
      max_le_max (le_refl 0) (by nlinarith)
    linarith
  exact min_le_min (max_le_max h (le_refl 0)) (le_refl 100)

/-- Witness for C6: dropping the symmetry index from 0.8 to 0.5 (all other
fields identical) does not increase the gait score. -/
theorem gait_score_monotone_witness :
    (({ gait_symmetry_index := some 0.5 } : MetricRecord).gait_symmetry_index.getD 1.0 ≤
      ({ gait_symmetry_index := some 0.8 } : MetricRecord).gait_symmetry_index.getD 1.0) ∧
    calculate_gait_score { gait_symmetry_index := some 0.5 } ≤
      calculate_gait_score { gait_symmetry_index := some 0.8 } :=
  ⟨by norm_num, gait_score_monotone { gait_symmetry_index := some 0.8 }
    { gait_symmetry_index := some 0.5 } (by norm_num) (by norm_num) (by norm_num) (by norm_num)⟩

/-- C7: the recommendation rules of `generate_summary` fire in fixed
evaluation order with distinct messages per condition, and the short flag
strings of `analyze_record` form a separate list, also in rule order. -/
theorem summary_and_flags_order (g : ℚ) (p s : String) (m : MetricRecord)
    (prof : SubjectProfile) :
    generate_summary g p s m prof =
      (if g < 70 then ["Significant gait asymmetry or reduced mobility detected."] else []) ++
      (if p = "High" then ["Severe pressure imbalance. Immediate socket inspection recommended."]
        else if p = "Moderate" then ["Minor pressure imbalance detected. Monitor for discomfort."]
        else []) ++
      (if s = "High" then ["Critical risk of skin irritation or breakdown."]
        else if s = "Moderate" then
          ["Elevated skin temperature/moisture. Ensure proper stump hygiene."]
        else []) ++
      (if prof.bmi.getD 0 > 30 then ["High BMI may increase mechanical stress on the prosthesis."]
        else []) ∧
    analyze_record_flags g p s =
      (if g < 75 then ["Abnormal Gait Symmetry"] else []) ++
      (if p = "High" then ["High Pressure Risk"] else []) ++
      (if s = "High" then ["High Skin Risk"] else []) ∧
    (["Significant gait asymmetry or reduced mobility detected.",
      "Severe pressure imbalance. Immediate socket inspection recommended.",
      "Minor pressure imbalance detected. Monitor for discomfort.",
      "Critical risk of skin irritation or breakdown.",
      "Elevated skin temperature/moisture. Ensure proper stump hygiene.",
      "High BMI may increase mechanical stress on the prosthesis."] : List String).Nodup ∧
    (["Abnormal Gait Symmetry", "High Pressure Risk", "High Skin Risk"] : List String).Nodup := by
  refine ⟨?_, ?_, by decide, by decide⟩
  · simp only [generate_summary]
    split_ifs <;> simp
  · simp only [analyze_record_flags]
    split_ifs <;> simp

/-- C8: with zero qualifying records the multi-day aggregation returns
all-zero per-metric averages and the sentinel classification labels
`"No Data"` (and, being a total function, raises nothing). -/
theorem aggregate_empty_no_data (profile : SubjectProfile)
    (risk : CompositeMetrics → String) :
    (get_patient_health_summary profile [] risk).metrics.avg_step_length_cm = 0 ∧
    (get_patient_health_summary profile [] risk).metrics.avg_cadence_spm = 0 ∧
    (get_patient_health_summary profile [] risk).metrics.avg_walking_speed_mps = 0 ∧
    (get_patient_health_summary profile [] risk).metrics.avg_gait_symmetry_index = 0 ∧
    (get_patient_health_summary profile [] risk).metrics.avg_pressure_distribution_index = 0 ∧
    (get_patient_health_summary profile [] risk).metrics.avg_skin_temperature_c = 0 ∧
    (get_patient_health_summary profile [] risk).metrics.avg_skin_moisture = 0 ∧
    (get_patient_health_summary profile [] risk).classification.prosthetic_health_score = 0 ∧
    (get_patient_health_summary profile [] risk).classification.gait_abnormality = "No Data" ∧
    (get_patient_health_summary profile [] risk).classification.skin_risk = "No Data" := by
  simp [get_patient_health_summary, field_average, round2, roundTo]

/-- Line 1 of the clinical narrative, chosen by the health score
(thresholds 80 and 60). -/
def overall_health_line (health_score : ℚ) : String :=
  if health_score ≥ 80 then
    "Overall prosthetic performance is stable with strong biomechanical efficiency."
  else if health_score ≥ 60 then
    "Moderate prosthetic stability observed; minor biomechanical deviations detected."
  else "Reduced prosthetic efficiency detected; clinical review recommended."

/-- Line 2 of the clinical narrative, chosen by the (already rescaled)
symmetry value (thresholds 90 and 75). -/
def symmetry_line (symmetry : ℚ) : String :=
  if symmetry ≥ 90 then "Gait symmetry is within optimal clinical range."
  else if symmetry ≥ 75 then "Mild asymmetry present; corrective gait monitoring advised."
  else "Significant gait asymmetry detected; rehabilitation adjustment suggested."

/-- Line 3 of the clinical narrative: the step/cadence sentence. -/
def step_cadence_line (step_length cadence : ℚ) : String :=
  "Step length averages " ++ pyStr step_length ++ " cm with cadence at " ++ pyStr cadence ++
    " steps/min, indicating functional mobility status."

/-- Line 4 of the clinical narrative, chosen by the skin-risk label
(case-insensitive). -/
def skin_risk_line (skin_risk : String) : String :=
  if skin_risk.toLower = "high" then
    "Elevated skin risk detected; immediate prosthetic fit assessment recommended."
  else if skin_risk.toLower = "moderate" then
    "Moderate skin stress observed; monitor tissue condition closely."
  else "Skin integrity remains within safe tolerance levels."

/-- C9: the narrative generator returns exactly four lines in fixed order —
overall-health (80/60), symmetry (90/75), step/cadence, skin-risk — and a
symmetry value below 1.1 is first treated as a 0–1 fraction and multiplied by
100, while a value of at least 1.1 is used unchanged. -/
theorem generate_clinical_summary_spec (m : MetricRecord) :
    generate_clinical_summary m =
      [overall_health_line (m.prosthetic_health_score.getD 0),
       symmetry_line (if m.gait_symmetry_index.getD 0 < 1.1 then
         m.gait_symmetry_index.getD 0 * 100 else m.gait_symmetry_index.getD 0),
       step_cadence_line (m.step_length_cm.getD 0) (m.cadence_spm.getD 0),
       skin_risk_line (m.skin_risk.getD "unknown")] ∧
    (generate_clinical_summary m).length = 4 := by
  have h : generate_clinical_summary m =
      [overall_health_line (m.prosthetic_health_score.getD 0),
       symmetry_line (if m.gait_symmetry_index.getD 0 < 1.1 then
         m.gait_symmetry_index.getD 0 * 100 else m.gait_symmetry_index.getD 0),
       step_cadence_line (m.step_length_cm.getD 0) (m.cadence_spm.getD 0),
       skin_risk_line (m.skin_risk.getD "unknown")] := by
    simp only [generate_clinical_summary, overall_health_line, symmetry_line,
      step_cadence_line, skin_risk_line]
    split_ifs <;> simp
  exact ⟨h, by rw [h]; rfl⟩

/-- C10: for a non-empty record list every per-metric average is the sum of
`r.get(field, 0)` over ALL fetched records (no `walking_speed_mps > 0`
filter, and 0 — not the §4.1 scoring defaults — substituted for absent
fields) divided by the total record count, and the two classification labels
are copied from the last fetched record rather than derived from averages. -/
theorem summary_averages_all_records (profile : SubjectProfile)
    (daily_records : List MetricRecord) (risk : CompositeMetrics → String)
    (h : daily_records ≠ []) :
    (get_patient_health_summary profile daily_records risk).metrics.avg_step_length_cm =
      round2 ((daily_records.map fun r => r.step_length_cm.getD 0).sum /
        daily_records.length) ∧
    (get_patient_health_summary profile daily_records risk).metrics.avg_cadence_spm =
      round2 ((daily_records.map fun r => r.cadence_spm.getD 0).sum / daily_records.length) ∧
    (get_patient_health_summary profile daily_records risk).metrics.avg_walking_speed_mps =
      round2 ((daily_records.map fun r => r.walking_speed_mps.getD 0).sum /
        daily_records.length) ∧
    (get_patient_health_summary profile daily_records risk).metrics.avg_gait_symmetry_index =
      round2 ((daily_records.map fun r => r.gait_symmetry_index.getD 0).sum /
        daily_records.length) ∧
    (get_patient_health_summary profile daily_records
        risk).metrics.avg_pressure_distribution_index =
      round2 ((daily_records.map fun r => r.pressure_distribution_index.getD 0).sum /
        daily_records.length) ∧
    (get_patient_health_summary profile daily_records risk).metrics.avg_skin_temperature_c =
      round2 ((daily_records.map fun r => r.skin_temperature_c.getD 0).sum /
        daily_records.length) ∧
    (get_patient_health_summary profile daily_records risk).metrics.avg_skin_moisture =
      round2 ((daily_records.map fun r => r.skin_moisture.getD 0).sum /
        daily_records.length) ∧
    (get_patient_health_summary profile daily_records
        risk).classification.prosthetic_health_score =
      round2 ((daily_records.map fun r => r.prosthetic_health_score.getD 0).sum /
        daily_records.length) ∧
    (get_patient_health_summary profile daily_records risk).classification.gait_abnormality =
      ((daily_records.getLast h).gait_abnormality).getD "Normal" ∧
    (get_patient_health_summary profile daily_records risk).classification.skin_risk =
      ((daily_records.getLast h).skin_risk).getD "Low" := by
  have hne : daily_records.isEmpty = false := by
    simp [List.isEmpty_eq_false, h]
  have hlast : daily_records.getLast? = some (daily_records.getLast h) :=
    List.getLast?_eq_getLast daily_records h
  refine ⟨?_, ?_, ?_, ?_, ?_, ?_, ?_, ?_, ?_, ?_⟩ <;>
    simp [get_patient_health_summary, field_average, hne, hlast]

/-- First record of the C10 witness: a full reading. -/
def c10_rec1 : MetricRecord :=
  { step_length_cm := some 64, cadence_spm := some 102, walking_speed_mps := some 1.3,
    gait_symmetry_index := some 0.92, skin_temperature_c := some 31, skin_moisture := some 40,
    pressure_distribution_index := some 0.9, daily_wear_hours := some 8,
    prosthetic_health_score := some 88 }

/-- Second record of the C10 witness: an invalid/sentinel reading with
`walking_speed_mps = 0` and several fields absent — it still participates in
the averages and, being last, supplies the classification labels. -/
def c10_rec2 : MetricRecord :=
  { walking_speed_mps := some 0, gait_abnormality := some "Abnormal",
    skin_risk := some "High" }

/-- Witness for C10 on a concrete two-record list whose second record has
`walking_speed_mps = 0` (not excluded) and missing fields (0 substituted):
the step-length average ranges over both records and the labels come from
the last record. -/
theorem summary_averages_all_records_witness :
    ([c10_rec1, c10_rec2] ≠ ([] : List MetricRecord)) ∧
    (get_patient_health_summary {} [c10_rec1, c10_rec2]
        (fun _ => "Low")).metrics.avg_step_length_cm =
      round2 ((([c10_rec1, c10_rec2]).map fun r => r.step_length_cm.getD 0).sum /
        ([c10_rec1, c10_rec2] : List MetricRecord).length) ∧
    (get_patient_health_summary {} [c10_rec1, c10_rec2]
        (fun _ => "Low")).classification.skin_risk =
      ((([c10_rec1, c10_rec2] : List MetricRecord).getLast (by simp)).skin_risk).getD "Low" := by
  refine ⟨by simp, ?_, ?_⟩
  · exact (summary_averages_all_records {} [c10_rec1, c10_rec2] (fun _ => "Low") (by simp)).1
  · exact (summary_averages_all_records {} [c10_rec1, c10_rec2]
      (fun _ => "Low") (by simp)).2.2.2.2.2.2.2.2.2

/-- A concrete freshly-composed summary, used as the engine result in the
cache scenarios. -/
def sample_computed : SummaryData :=
  { metrics :=
      { avg_step_length_cm := 1, avg_cadence_spm := 2, avg_walking_speed_mps := 3,
        avg_gait_symmetry_index := 4, avg_pressure_distribution_index := 5,
        avg_skin_temperature_c := 6, avg_skin_moisture := 7 }
    classification :=
      { gait_abnormality := "Normal", skin_risk := "Low",
        prosthetic_health_score := 90, overall_clinical_risk := "Low" }
    clinical_profile :=
      { gender := "Unknown", height_cm := none, weight_kg := none, bmi := 0,
        blood_pressure := "0/0", blood_sugar_mg_dl := 0, medical_conditions := [] }
    analysis := ["All good."]
    patient_name := "P"
    patient_age := 30
    recent_alerts := [] }

/-- A one-hour-old cache entry with real metrics and an EMPTY narrative list:
it satisfies every condition the claim states for a hit, yet the route's
truthiness test rejects it. -/
def empty_narrative_entry : CacheEntry :=
  { patient_id := "p1", date := "2026-10-12", type := "ai_medical_report",
    data := { avg_step_length_cm := some (.num 42), analysis := some [] },
    created_at := 100 }

/-- A one-hour-old cache entry whose narrative line CONTAINS the placeholder
marker "temporarily unavailable" as a proper substring: the claim demands a
miss, but the route's list-membership test accepts it. -/
def marker_text_entry : CacheEntry :=
  { patient_id := "p1", date := "2026-10-12", type := "ai_medical_report",
    data :=
      { avg_step_length_cm := some (.num 42),
        analysis := some ["AI narrative temporarily unavailable for this visit."] },
    created_at := 100 }

/-- A one-hour-old cache entry that passes the route's validation. -/
def valid_entry : CacheEntry :=
  { patient_id := "p1", date := "2026-10-12", type := "ai_medical_report",
    data := { avg_step_length_cm := some (.num 42), analysis := some ["All good."] },
    created_at := 100 }

/-- Counterexample to C2 as stated.  Entry A (`empty_narrative_entry`) meets
all three of the claim's hit conditions — age within 24 h, real metrics, no
placeholder marker anywhere in its narrative — yet the route recomputes and
inserts.  Entry B (`marker_text_entry`) violates the claim's no-placeholder
condition (a line contains the marker as text), yet the route serves the
cached payload. -/
theorem download_report_cache_claim_counterexample :
    spec_freshness 101 empty_narrative_entry = true ∧
    (download_report_cache [empty_narrative_entry] "p1" "2026-10-12" 101 sample_computed).1 ≠
      empty_narrative_entry.data ∧
    (download_report_cache [empty_narrative_entry] "p1" "2026-10-12" 101 sample_computed).2 =
      [empty_narrative_entry, new_cache_entry "p1" "2026-10-12" 101 sample_computed] ∧
    spec_freshness 101 marker_text_entry = false ∧
    (download_report_cache [marker_text_entry] "p1" "2026-10-12" 101 sample_computed).1 =
      marker_text_entry.data := by
  have hf1 : cache_filter "p1" "2026-10-12" 101 empty_narrative_entry = true := by
    simp only [cache_filter, empty_narrative_entry, Bool.and_eq_true, beq_self_eq_true,
      decide_eq_true_eq]
    norm_num
  have hf2 : cache_filter "p1" "2026-10-12" 101 marker_text_entry = true := by
    simp only [cache_filter, marker_text_entry, Bool.and_eq_true, beq_self_eq_true,
      decide_eq_true_eq]
    norm_num
  have hfind1 : [empty_narrative_entry].find? (cache_filter "p1" "2026-10-12" 101) =
      some empty_narrative_entry := List.find?_cons_of_pos _ hf1
  have hfind2 : [marker_text_entry].find? (cache_filter "p1" "2026-10-12" 101) =
      some marker_text_entry := List.find?_cons_of_pos _ hf2
  have hv1 : (has_real_metrics empty_narrative_entry.data &&
      has_valid_ai empty_narrative_entry.data) = false := by decide
  have hv2 : (has_real_metrics marker_text_entry.data &&
      has_valid_ai marker_text_entry.data) = true := by decide
  have hmark : (marker_text_entry.data.analysis.getD []).any (fun line =>
      str_contains line "temporarily unavailable" ||
      str_contains line "failed to generate") = true := by decide
  have hempty : (empty_narrative_entry.data.analysis.getD []).any (fun line =>
      str_contains line "temporarily unavailable" ||
      str_contains line "failed to generate") = false := by decide
  refine ⟨?_, ?_, ?_, ?_, ?_⟩
  · simp only [spec_freshness, hempty, Bool.not_false, Bool.and_true, Bool.and_eq_true,
      decide_eq_true_eq]
    refine ⟨by norm_num [empty_narrative_entry], by decide⟩
  · simp only [download_report_cache, hfind1, hv1, Bool.false_eq_true, if_false]
    simp only [toCachedData, sample_computed, empty_narrative_entry, ne_eq,
      CachedData.mk.injEq, not_and]
    intro _
    simp
  · simp [download_report_cache, hfind1, hv1]
  · simp [spec_freshness, hmark]
  · simp [download_report_cache, hfind2, hv2]

/-- C2, amended to the code's actual behaviour: the fetch serves the cached
payload iff the FIRST entry matching (subject, day, report-kind) with
`created_at` within 24 hours exists and carries real metrics
(`avg_step_length_cm` not null/"N/A") and a NON-EMPTY narrative list no LINE
of which equals a placeholder marker; in every other case the summary is
recomputed and appended as a new entry, and no stored entry is ever
deleted. -/
theorem download_report_cache_amended (store : List CacheEntry) (pid today : String)
    (now : ℚ) (computed : SummaryData) :
    (∀ e, store.find? (cache_filter pid today now) = some e →
      (has_real_metrics e.data && has_valid_ai e.data) = true →
      download_report_cache store pid today now computed = (e.data, store)) ∧
    (∀ e, store.find? (cache_filter pid today now) = some e →
      (has_real_metrics e.data && has_valid_ai e.data) = false →
      download_report_cache store pid today now computed =
        (toCachedData computed, store ++ [new_cache_entry pid today now computed])) ∧
    (store.find? (cache_filter pid today now) = none →
      download_report_cache store pid today now computed =
        (toCachedData computed, store ++ [new_cache_entry pid today now computed])) ∧
    (∀ x ∈ store, x ∈ (download_report_cache store pid today now computed).2) := by
  refine ⟨?_, ?_, ?_, ?_⟩
  · intro e he hv
    simp [download_report_cache, he, hv]
  · intro e he hv
    simp [download_report_cache, he, hv]
  · intro he
    simp [download_report_cache, he]
  · intro x hx
    unfold download_report_cache
    cases hfind : store.find? (cache_filter pid today now) with
    | none => simp [hx]
    | some e =>
      by_cases hv : (has_real_metrics e.data && has_valid_ai e.data) = true
      · simp [hv, hx]
      · simp only [Bool.not_eq_true] at hv
        simp [hv, hx]

/-- Witness for C2 (amended): a fresh valid entry is served back unchanged
and the store is untouched. -/
theorem download_report_cache_amended_witness :
    ([valid_entry].find? (cache_filter "p1" "2026-10-12" 101) = some valid_entry) ∧
    ((has_real_metrics valid_entry.data && has_valid_ai valid_entry.data) = true) ∧
    download_report_cache [valid_entry] "p1" "2026-10-12" 101 sample_computed =
      (valid_entry.data, [valid_entry]) := by
  have hf : cache_filter "p1" "2026-10-12" 101 valid_entry = true := by
    simp only [cache_filter, valid_entry, Bool.and_eq_true, beq_self_eq_true,
      decide_eq_true_eq]
    norm_num
  have hfind : [valid_entry].find? (cache_filter "p1" "2026-10-12" 101) = some valid_entry :=
    List.find?_cons_of_pos _ hf
  have hv : (has_real_metrics valid_entry.data && has_valid_ai valid_entry.data) = true := by
    decide
  exact ⟨hfind, hv,
    (download_report_cache_amended [valid_entry] "p1" "2026-10-12" 101 sample_computed).1
      valid_entry hfind hv⟩

end Prothexai
